import Mathlib

/-!
Shallow embedding of the IPCC_dashboard repository (src/app.py, src/app2.py):
a Streamlit app that loads two IPCC temperature-anomaly CSV files
(`prepare_data`), filters them by user-chosen time and temperature ranges
(the filter block of `main` in app2.py), and renders a matplotlib chart
(`plot_simple_temperature`).

Modelling conventions:
- A pandas dataframe produced by `prepare_data` is a `List Record` with
  `Option Rat` fields; NaN (the missing sentinel introduced by
  `pd.to_numeric(..., errors="coerce")`) is `none`.
- Pandas elementwise comparisons follow IEEE semantics on NaN: any
  comparison with NaN is False; these are the `pd*` helpers below.
- Library calls that only draw (`ax.plot`, `ax.legend`, `ax.scatter`) are
  modelled by recording their arguments in `ChartParams`.  Two failure
  points are modelled: the `.values[0]` indexing of the NOW-star lookup,
  which raises `IndexError` when the selection is empty, and the
  `ax.set_xlim` call, which validates its limits and raises `ValueError`
  when either is non-finite — as happens when a Year column is empty or
  all-NaN, since pandas `min()`/`max()` then return NaN.  The star block
  (lines 44-50) runs before `set_xlim` (line 72), so `IndexError` wins when
  both would fire.
- `computeTrend` and `specLowerBound` are exceptions to the source-only
  rule, each marked in its doc comment: the first models a component that
  exists only in the spec, the second restates the spec wording of the
  axis-bound policy for comparison against the code.
-/

namespace IPCCDashboard

/-- Provenance tag, as set by `df["Source"] = "Observed"` /
`df["Source"] = "Reconstructed"` in `prepare_data`. -/
inductive Source where
  | observed
  | reconstructed
deriving DecidableEq

/-- A raw CSV field before numeric coercion: either numeric text (carrying
its value) or non-numeric text. -/
inductive RawField where
  | num (q : ℚ)
  | text (s : String)
deriving DecidableEq

/-- `pd.to_numeric(x, errors="coerce")` on one field: numeric values pass
through, anything unparseable becomes NaN (`none`). -/
def toNumericCoerce : RawField → Option ℚ
  | .num q => some q
  | .text _ => none

/-- One raw data row after header skipping, column renaming and dropping of
the extraneous columns: the positional Year and Temperature fields. -/
structure RawRow where
  year : RawField
  temp : RawField
deriving DecidableEq

/-- One row of a normalized dataframe: Year and Temperature after
`pd.to_numeric(..., errors="coerce")`, plus the Source tag. -/
structure Record where
  year : Option ℚ
  temp : Option ℚ
  source : Source
deriving DecidableEq

/-- The per-source normalization done in `prepare_data` (app.py and app2.py
lines 9-22): coerce Year and Temperature with the coerce-or-NaN policy and
tag the Source column.  All steps are column-wise; the row count is
untouched. -/
def normalizeRows (src : Source) (rows : List RawRow) : List Record :=
  rows.map fun r => ⟨toNumericCoerce r.year, toNumericCoerce r.temp, src⟩

/-- Outcome of one `pd.read_csv` + `rename` + `drop` chain before coercion:
either the raw rows, or a raised exception — `KeyError` from `drop` when the
expected columns are absent after header skipping, or `FileNotFoundError`
from `read_csv`. -/
inductive LoadRaw where
  | ok (rows : List RawRow)
  | missingColumns
  | fileMissing
deriving DecidableEq

/-- Whether the load chain raised no exception. -/
def LoadRaw.isOk : LoadRaw → Bool
  | .ok _ => true
  | _ => false

/-- The error value of the spec taxonomy for a malformed source file.  The
code never constructs such a value; the constructor exists so that the spec
claim about an explicit error value is expressible about the return type. -/
inductive IngestError where
  | ingestError
deriving DecidableEq

/-- What `prepare_data` does, observably: whether `st.error` was invoked in
the `except` handler, and the value returned to the caller. -/
structure PrepareOutcome where
  displayedError : Bool
  returned : IngestError ⊕ (List Record × List Record)
deriving DecidableEq

/-- `prepare_data` (app.py and app2.py lines 6-27): loads and normalizes
both sources inside a single `try`; any exception raised by either load
chain lands in the `except` branch, which calls `st.error` and returns two
empty dataframes.  No path returns an error value. -/
def prepare_data : LoadRaw → LoadRaw → PrepareOutcome
  | .ok o, .ok r =>
      ⟨false, .inr (normalizeRows .observed o, normalizeRows .reconstructed r)⟩
  | _, _ => ⟨true, .inr ([], [])⟩

/-- Pandas elementwise `series <= c`: a NaN entry compares False. -/
def pdLe (x : Option ℚ) (c : ℚ) : Bool :=
  match x with
  | some v => decide (v ≤ c)
  | none => false

/-- Pandas elementwise `series >= c`: a NaN entry compares False. -/
def pdGe (x : Option ℚ) (c : ℚ) : Bool :=
  match x with
  | some v => decide (c ≤ v)
  | none => false

/-- Pandas elementwise `series < c`: a NaN entry compares False. -/
def pdLt (x : Option ℚ) (c : ℚ) : Bool :=
  match x with
  | some v => decide (v < c)
  | none => false

/-- Pandas elementwise `series > c`: a NaN entry compares False. -/
def pdGt (x : Option ℚ) (c : ℚ) : Bool :=
  match x with
  | some v => decide (c < v)
  | none => false

/-- The Time Machine radio options of app2.py (lines 124-131). -/
inductive TimeTravel where
  | everywhere
  | dinosaur
  | knights
  | grandparents
  | yourTime
deriving DecidableEq

/-- The Temperature Time radio options of app2.py (lines 135-141). -/
inductive TempView where
  | all
  | hot
  | cold
  | normal
deriving DecidableEq

/-- The time-filter block of `main` (app2.py lines 157-171), applied to one
dataframe.  The `everywhere` option leaves the copy untouched. -/
def applyTimeFilter : TimeTravel → List Record → List Record
  | .everywhere, df => df
  | .dinosaur, df => df.filter fun r => pdLe r.year 500
  | .knights, df => df.filter fun r => pdGe r.year 800 && pdLe r.year 1400
  | .grandparents, df => df.filter fun r => pdGe r.year 1900 && pdLe r.year 1980
  | .yourTime, df => df.filter fun r => pdGe r.year 2000

/-- The inclusive anomaly-range row mask, `(df["Temperature"] >= lo) &
(df["Temperature"] <= hi)`, exactly the predicate of app2.py lines 183-184
generalized over its two literal bounds. -/
def anomalyRangeMask (lo hi : ℚ) (r : Record) : Bool :=
  pdGe r.temp lo && pdLe r.temp hi

/-- Row mask of the Hot-times branch, `df["Temperature"] > 0.3`
(app2.py line 175). -/
def hotMask (r : Record) : Bool := pdGt r.temp (3/10)

/-- Row mask of the Cold-times branch, `df["Temperature"] < -0.2`
(app2.py line 179). -/
def coldMask (r : Record) : Bool := pdLt r.temp (-(2/10))

/-- Row mask of the Normal-times branch (app2.py line 183): the inclusive
anomaly range with bounds -0.2 and 0.3. -/
def normalMask : Record → Bool := anomalyRangeMask (-(2/10)) (3/10)

/-- The temperature-filter block of `main` (app2.py lines 174-184), applied
to one dataframe. -/
def applyTempFilter : TempView → List Record → List Record
  | .all, df => df
  | .hot, df => df.filter hotMask
  | .cold, df => df.filter coldMask
  | .normal, df => df.filter normalMask

/-- The whole filter stage of `main` (app2.py lines 153-184): copy both
dataframes, apply the time filter, then the temperature filter, each source
independently. -/
def mainFilter (tt : TimeTravel) (tv : TempView) (obs recon : List Record) :
    List Record × List Record :=
  (applyTempFilter tv (applyTimeFilter tt obs),
   applyTempFilter tv (applyTimeFilter tt recon))

/-- Maximum of a list of rationals, `none` on the empty list. -/
def listMaxQ : List ℚ → Option ℚ
  | [] => none
  | x :: xs => some (xs.foldl max x)

/-- Minimum of a list of rationals, `none` on the empty list. -/
def listMinQ : List ℚ → Option ℚ
  | [] => none
  | x :: xs => some (xs.foldl min x)

/-- Pandas `Series.max()` over one column (skipna default): NaN entries are
ignored; an empty or all-NaN column yields NaN (`none`). -/
def colMax (f : Record → Option ℚ) (df : List Record) : Option ℚ :=
  listMaxQ (df.filterMap f)

/-- Pandas `Series.min()` over one column, NaN semantics as in `colMax`. -/
def colMin (f : Record → Option ℚ) (df : List Record) : Option ℚ :=
  listMinQ (df.filterMap f)

/-- The NOW-star lookup of `plot_simple_temperature` (app2.py lines 46-47,
app.py lines 43-44): `latest_year = df_obs["Year"].max()` and then
`df_obs.loc[df_obs["Year"] == latest_year, "Temperature"].values[0]`.
The `==` mask follows pandas semantics: a NaN Year matches nothing, and a
NaN `latest_year` matches nothing.  `.values[0]` on an empty selection
raises `IndexError`; that case is `none`. -/
def starLookup (df_obs : List Record) : Option (ℚ × Option ℚ) :=
  match colMax Record.year df_obs with
  | none => none
  | some ly =>
    match (df_obs.filter fun r => decide (r.year = some ly)).head? with
    | none => none
    | some r => some (ly, r.temp)

/-- The errors a plot construction can raise: the uncaught Python
`IndexError` from `.values[0]` on an empty selection, and the matplotlib
`ValueError` from `ax.set_xlim` when a limit is NaN. -/
inductive PlotError where
  | indexError
  | valueError
deriving DecidableEq

/-- The renderable outcome of one `plot_simple_temperature` call: which line
series were drawn (with their data), the NOW star if drawn, whether a legend
was added, and the `set_xlim` arguments. -/
structure ChartParams where
  oldLine : Option (List Record)
  newLine : Option (List Record)
  star : Option (ℚ × Option ℚ)
  legend : Bool
  xlim : Option ℚ × Option ℚ
deriving DecidableEq

/-- `plot_simple_temperature` of app2.py (lines 30-76): the Reconstructed
line is drawn iff `show_old_times`, the Observed line iff `show_new_times`,
the NOW star iff `show_star and show_new_times` (raising `IndexError` when
its lookup selects nothing), the legend is added iff
`show_old_times or show_new_times`, and `set_xlim` always receives
`(df_recon["Year"].min(), df_obs["Year"].max())`, raising `ValueError`
when either of those is NaN (matplotlib rejects non-finite axis limits),
which happens exactly when the corresponding Year column is empty or
all-NaN.  The star block precedes the `set_xlim` call.  The app.py variant
(lines 30-72) is this function with all three flags fixed to `true`. -/
def plot_simple_temperature (df_obs df_recon : List Record)
    (show_old_times show_new_times show_star : Bool) :
    Except PlotError ChartParams :=
  let starStep : Except PlotError (Option (ℚ × Option ℚ)) :=
    if show_star && show_new_times then
      match starLookup df_obs with
      | none => .error .indexError
      | some s => .ok (some s)
    else .ok none
  match starStep with
  | .error e => .error e
  | .ok starDrawn =>
      match colMin Record.year df_recon, colMax Record.year df_obs with
      | some lo, some hi =>
          .ok { oldLine := if show_old_times then some df_recon else none
                newLine := if show_new_times then some df_obs else none
                star := starDrawn
                legend := show_old_times || show_new_times
                xlim := (some lo, some hi) }
      | _, _ => .error .valueError

/-- The axis lower bound as the SPEC words it (Chart Parameter Builder,
spec section 4.5): the minimum year among the visible series only.  This
definition follows the spec, not the code, and exists to be compared with
the `xlim` the code computes. -/
def specLowerBound (showOld showNew : Bool) (df_obs df_recon : List Record) :
    Option ℚ :=
  match (if showOld then colMin Record.year df_recon else none),
        (if showNew then colMin Record.year df_obs else none) with
  | some a, some b => some (min a b)
  | some a, none => some a
  | none, some b => some b
  | none, none => none

/-- Modelled from the spec: `TrendResult` of spec section 3.  No trend
computation exists anywhere under src/. -/
structure TrendResult where
  slopePerYear : ℚ
  interceptValue : ℚ
deriving DecidableEq

/-- Modelled from the spec: the usable (non-missing) points of a filtered
Observed series, pairing year with anomaly and skipping any record with a
missing field (spec section 4.4). -/
def usablePoints (df : List Record) : List (ℚ × ℚ) :=
  df.filterMap fun r =>
    match r.year, r.temp with
    | some y, some t => some (y, t)
    | _, _ => none

/-- Modelled from the spec: ordinary least-squares fit of anomaly against
year (spec section 4.4), returning (slope, intercept). -/
def olsFit (pts : List (ℚ × ℚ)) : ℚ × ℚ :=
  let n : ℚ := pts.length
  let sx := (pts.map Prod.fst).sum
  let sy := (pts.map Prod.snd).sum
  let sxx := (pts.map fun p => p.1 * p.1).sum
  let sxy := (pts.map fun p => p.1 * p.2).sum
  let slope := (n * sxy - sx * sy) / (n * sxx - sx * sx)
  (slope, (sy - slope * sx) / n)

/-- Modelled from the spec: the Derived-Metric Calculator trend computation
(spec section 4.4), a component absent from src/ — src/ has no trend logic
at all.  The least-squares fit runs only when the Observed series is visible
and has at least 2 usable points; otherwise the result is absent. -/
def computeTrend (observedVisible : Bool) (df_obs : List Record) :
    Option TrendResult :=
  if observedVisible = false ∨ (usablePoints df_obs).length < 2 then none
  else some ⟨(olsFit (usablePoints df_obs)).1, (olsFit (usablePoints df_obs)).2⟩

/-- A small Observed dataframe with the shape of the real observed file:
years between 1850 and 2020, all fields parsed. -/
def sampleObs : List Record :=
  [⟨some 1850, some (-(1/10)), .observed⟩,
   ⟨some 1950, some (1/10), .observed⟩,
   ⟨some 2020, some (11/10), .observed⟩]

/-- A small Reconstructed dataframe with the shape of the real reconstructed
file: years between 1 and 2000. -/
def sampleRecon : List Record :=
  [⟨some 1, some 0, .reconstructed⟩,
   ⟨some 1000, some (-(1/10)), .reconstructed⟩,
   ⟨some 2000, some (1/10), .reconstructed⟩]

/-- A well-formed pair of raw rows for the load model. -/
def sampleRawRows : List RawRow :=
  [⟨.num 1850, .num (-(1/10))⟩, ⟨.num 2020, .text "bad"⟩]

end IPCCDashboard

namespace IPCCDashboard

/-- C1: the claim says an empty filtered series is valid input to every
later stage and plot construction completes without error.  The code
contradicts it: with the Dinosaur-times filter (Year <= 500) the Observed
series becomes empty (its years start at 1850), and the NOW-star lookup
`df_obs.loc[...].values[0]` raises IndexError under the default toggles
(show_new_times and show_star both true).  This theorem evaluates the
embedded pipeline at that failing input. -/
theorem c1_empty_filtered_obs_crashes_plot :
    (mainFilter .dinosaur .all sampleObs sampleRecon).1 = [] ∧
    plot_simple_temperature (mainFilter .dinosaur .all sampleObs sampleRecon).1
      (mainFilter .dinosaur .all sampleObs sampleRecon).2 true true true
      = Except.error .indexError := by
  constructor <;> rfl

/-- C2 counterexample: with the Reconstructed series hidden
(`show_old_times = false`), the spec lower bound is the Observed minimum
(1850 on the sample data), but the code passes the Reconstructed minimum
(1) to `set_xlim`; the two differ, so the claimed visibility-aware
axis-bound policy is false of the code. -/
theorem c2_counterexample :
    (plot_simple_temperature sampleObs sampleRecon false true false).toOption.map
        (fun p => p.xlim.1) = some (some 1) ∧
    specLowerBound false true sampleObs sampleRecon = some 1850 ∧
    some (some (1:ℚ)) ≠ some (some (1850:ℚ)) := by
  refine ⟨rfl, rfl, by decide⟩

/-- C2 (amended): whenever `plot_simple_temperature` returns a chart, its
horizontal domain is always `(Reconstructed minimum year, Observed maximum
year)`, irrespective of which series are visible and of emptiness — the
visibility flags play no role in the `set_xlim` call. -/
theorem c2_xlim_always_recon_min_obs_max
    (df_obs df_recon : List Record) (so sn st : Bool) (p : ChartParams)
    (h : plot_simple_temperature df_obs df_recon so sn st = .ok p) :
    p.xlim = (colMin Record.year df_recon, colMax Record.year df_obs) := by
  unfold plot_simple_temperature at h
  cases st <;> cases sn <;> cases hs : starLookup df_obs <;>
    cases hrec : colMin Record.year df_recon <;>
    cases hobs : colMax Record.year df_obs <;>
    simp [hs, hrec, hobs] at h <;> (subst h; rfl)

/-- C2 witness: the amended theorem applied at the counterexample input. -/
theorem c2_xlim_witness :
    ({ oldLine := none, newLine := some sampleObs, star := none,
       legend := true, xlim := (some 1, some 2020) } : ChartParams).xlim
      = (colMin Record.year sampleRecon, colMax Record.year sampleObs) :=
  c2_xlim_always_recon_min_obs_max sampleObs sampleRecon false true false _ rfl

/-- C3 counterexample: when the Observed file's expected columns are absent,
`prepare_data` returns the substitute pair of empty dataframes to the
caller, not an error value; and a missing file — a failure that is not
absent columns — takes the identical path, so absent columns is not the
only hard-fail condition.  Both halves of the claim fail on the code. -/
theorem c3_counterexample :
    (prepare_data .missingColumns (.ok sampleRawRows)).returned
        = Sum.inr ([], []) ∧
    (prepare_data .missingColumns (.ok sampleRawRows)).returned
        ≠ Sum.inl .ingestError ∧
    prepare_data .fileMissing (.ok sampleRawRows)
        = prepare_data .missingColumns (.ok sampleRawRows) := by
  refine ⟨rfl, by decide, rfl⟩

/-- C3 (amended): on any load failure of either source — absent expected
columns or a missing file — `prepare_data` displays an error message and
returns the substitute result of two empty dataframes; it never returns an
explicit error value to the caller. -/
theorem c3_failure_substitutes_empty (lo lr : LoadRaw)
    (h : lo.isOk = false ∨ lr.isOk = false) :
    prepare_data lo lr = ⟨true, .inr ([], [])⟩ := by
  cases lo <;> cases lr <;> simp_all [prepare_data, LoadRaw.isOk]

/-- C3 witness: the amended theorem applied at a concrete failing load. -/
theorem c3_failure_witness :
    prepare_data .fileMissing (.ok sampleRawRows) = ⟨true, .inr ([], [])⟩ :=
  c3_failure_substitutes_empty .fileMissing (.ok sampleRawRows) (Or.inl rfl)

/-- C4: a record passes the inclusive anomaly-range mask with bounds
`(lo, hi)` exactly when its anomaly is present and `lo <= anomaly <= hi`
(so a missing anomaly always fails), and the scenario: the range
`(-0.2, 0.3)` applied to a series holding `(1900, 0.5)` and `(1950, 0.1)`
keeps only the `(1950, 0.1)` record. -/
theorem c4_anomaly_range_semantics :
    (∀ (lo hi : ℚ) (r : Record),
        anomalyRangeMask lo hi r = true ↔
          ∃ t, r.temp = some t ∧ lo ≤ t ∧ t ≤ hi) ∧
    applyTempFilter .normal
        [⟨some 1900, some (1/2), .observed⟩, ⟨some 1950, some (1/10), .observed⟩]
      = [⟨some 1950, some (1/10), .observed⟩] := by
  constructor
  · intro lo hi r
    cases hr : r.temp with
    | none => simp [anomalyRangeMask, pdGe, pdLe, hr]
    | some t => simp [anomalyRangeMask, pdGe, pdLe, hr, and_assoc]
  · simp only [applyTempFilter, normalMask, anomalyRangeMask, pdGe, pdLe,
      List.filter_cons, List.filter_nil, Bool.and_eq_true, decide_eq_true_eq]
    norm_num

/-- C5: the Normalizer preserves the row count and acts purely in place: the
output at every index is the coercion of the input row at that index, so a
row with an unparseable field becomes a row with the missing sentinel and no
row is ever dropped. -/
theorem c5_normalizer_length_and_in_place (src : Source) (rows : List RawRow) :
    (normalizeRows src rows).length = rows.length ∧
    ∀ i : ℕ, (normalizeRows src rows)[i]?
      = (rows[i]?).map fun r => ⟨toNumericCoerce r.year, toNumericCoerce r.temp, src⟩ := by
  refine ⟨List.length_map _ _, fun i => ?_⟩
  simp [normalizeRows]

/-- C6: the unrestricted filter selection — Everywhere in time, All
temperatures, both sources visible (visibility never enters the filter
stage) — returns both series unchanged: the identity law. -/
theorem c6_unrestricted_filter_identity (obs recon : List Record) :
    mainFilter .everywhere .all obs recon = (obs, recon) := rfl

/-- C7: the trend result is absent whenever the Observed series is hidden or
has fewer than 2 usable (non-missing) points; the least-squares fit is never
run in those cases.  (Settled against `computeTrend`, modelled from the
spec: src/ contains no trend computation.) -/
theorem c7_trend_absent_when_hidden_or_underdetermined
    (visible : Bool) (df_obs : List Record)
    (h : visible = false ∨ (usablePoints df_obs).length < 2) :
    computeTrend visible df_obs = none := by
  unfold computeTrend
  exact if_pos h

/-- C7 witness: the trend is absent for a hidden series with ample data and
for a visible single-point series. -/
theorem c7_trend_absent_witness :
    computeTrend false sampleObs = none ∧
    computeTrend true [⟨some 2020, some (11/10), .observed⟩] = none :=
  ⟨c7_trend_absent_when_hidden_or_underdetermined false sampleObs (Or.inl rfl),
   c7_trend_absent_when_hidden_or_underdetermined true
     [⟨some 2020, some (11/10), .observed⟩] (Or.inr (by decide))⟩

/-- C8 counterexample: the claim promises success for EVERY valid FilterSpec
with both series hidden, but the Knights-and-castles year range (800-1400)
empties the Observed series (its years start at 1850), pandas `max()` on the
empty Year column yields NaN, and `ax.set_xlim` raises ValueError on the NaN
limit even though nothing was going to be drawn. -/
theorem c8_counterexample :
    (mainFilter .knights .all sampleObs sampleRecon).1 = [] ∧
    plot_simple_temperature (mainFilter .knights .all sampleObs sampleRecon).1
      (mainFilter .knights .all sampleObs sampleRecon).2 false false false
      = Except.error .valueError := by
  constructor <;> rfl

/-- C8 (amended): hiding both series yields an empty chart — no line, no
star (the star block requires the Observed line), no legend — and the build
succeeds without error provided both `set_xlim` arguments are finite, i.e.
the Reconstructed and the Observed Year columns each hold at least one
non-NaN entry; with an empty or all-NaN Year column `set_xlim` raises
ValueError even with both series hidden. -/
theorem c8_all_hidden_empty_chart_when_limits_finite
    (df_obs df_recon : List Record) (s : Bool) (lo hi : ℚ)
    (hrec : colMin Record.year df_recon = some lo)
    (hobs : colMax Record.year df_obs = some hi) :
    plot_simple_temperature df_obs df_recon false false s
      = .ok { oldLine := none, newLine := none, star := none, legend := false,
              xlim := (some lo, some hi) } := by
  cases s <;> simp [plot_simple_temperature, hrec, hobs]

/-- C8 witness: the amended theorem applied to the sample dataframes, whose
Year columns are fully parsed. -/
theorem c8_empty_chart_witness :
    plot_simple_temperature sampleObs sampleRecon false false true
      = .ok { oldLine := none, newLine := none, star := none, legend := false,
              xlim := (some 1, some 2020) } :=
  c8_all_hidden_empty_chart_when_limits_finite sampleObs sampleRecon true 1 2020 rfl rfl

/-- C9: when the Observed (New Times) line is hidden, the NOW star is never
drawn, whatever the star toggle and the other inputs: every chart the
function produces with `show_new_times = false` has no star, because the
star block is guarded by `show_star and show_new_times`. -/
theorem c9_no_star_when_new_hidden (df_obs df_recon : List Record)
    (show_old show_star : Bool) (p : ChartParams)
    (h : plot_simple_temperature df_obs df_recon show_old false show_star
        = .ok p) :
    p.star = none := by
  unfold plot_simple_temperature at h
  cases show_old <;> cases show_star <;>
    cases hrec : colMin Record.year df_recon <;>
    cases hobs : colMax Record.year df_obs <;>
    simp [hrec, hobs] at h <;> (subst h; rfl)

/-- C9 witness: the theorem applied at a concrete chart with the Observed
line hidden and the star toggle on. -/
theorem c9_no_star_witness :
    ({ oldLine := some sampleRecon, newLine := none, star := none,
       legend := true, xlim := (some 1, some 2020) } : ChartParams).star
      = none :=
  c9_no_star_when_new_hidden sampleObs sampleRecon true true _ rfl

/-- C10: the three temperature views partition the present anomaly values —
every record with a present anomaly satisfies exactly one of the Hot, Cold
and Normal masks — and a record with a missing anomaly satisfies none. -/
theorem c10_temp_views_partition (y : Option ℚ) (s : Source) (t : ℚ) :
    ((hotMask ⟨y, some t, s⟩ = true ∧ coldMask ⟨y, some t, s⟩ = false ∧
        normalMask ⟨y, some t, s⟩ = false) ∨
     (hotMask ⟨y, some t, s⟩ = false ∧ coldMask ⟨y, some t, s⟩ = true ∧
        normalMask ⟨y, some t, s⟩ = false) ∨
     (hotMask ⟨y, some t, s⟩ = false ∧ coldMask ⟨y, some t, s⟩ = false ∧
        normalMask ⟨y, some t, s⟩ = true)) ∧
    (hotMask ⟨y, none, s⟩ = false ∧ coldMask ⟨y, none, s⟩ = false ∧
      normalMask ⟨y, none, s⟩ = false) := by
  constructor
  · simp only [hotMask, coldMask, normalMask, anomalyRangeMask, pdGt, pdLt, pdGe, pdLe]
    rcases lt_or_le (3/10 : ℚ) t with h1 | h1
    · refine Or.inl ⟨by simp [h1], by simp; linarith, by simp; intro h2; linarith⟩
    · rcases lt_or_le t (-(2/10) : ℚ) with h2 | h2
      · refine Or.inr (Or.inl ⟨by simp; linarith, by simp [h2], by simp; intro h3; linarith⟩)
      · refine Or.inr (Or.inr ⟨by simp; linarith, by simp; linarith, by simp [h1, h2]⟩)
  · refine ⟨rfl, rfl, rfl⟩

end IPCCDashboard
